import Mathlib

/-!
Verification of the branch-aware countdown timer extension
(`src/extension.ts`).  The timer keeps a `TimerState` record persisted as
JSON, ticks once per second, pauses on a filesystem marker, warns at five
minutes remaining, and auto-commits on expiry.  Times are seconds as
`Date.now() / 1000`, modelled as rationals.
-/

namespace TimerExt

/-- The persisted record (`interface TimerState`).  `branch` is `Option`
because `loadState` passes the raw JSON field through with only a non-null
assertion, so a record without a branch yields the undefined value. -/
structure TimerState where
  branch    : Option String
  elapsed   : ℚ
  limit     : ℚ
  startTime : ℚ
  task      : ℕ
deriving Repr, DecidableEq

/-- `BRANCH_LIMITS` lookup table from `src/extension.ts`. -/
def BRANCH_LIMITS : String → Option ℚ
  | "main"        => some (6 * 60)
  | "tutorial"    => some (15 * 60)
  | "addPicture"  => some (30 * 60)
  | "addDistance" => some (30 * 60)
  | _             => none

/-- `BRANCH_LIMITS[b] ?? 30*60`, applied to a possibly-undefined branch
(JS indexing with `undefined` misses the table). -/
def branchLimitLookup : Option String → ℚ
  | some b => (BRANCH_LIMITS b).getD (30 * 60)
  | none   => 30 * 60

/-- Per-branch task count computed in the `extension.startTimer` handler:
`isWarmup ? 1 : (['addDistance','addPicture'].includes(branch) ? 3 : 1)`. -/
def maxTasksFor (branch : String) : ℕ :=
  if branch = "tutorial" then 1
  else if branch = "addDistance" ∨ branch = "addPicture" then 3
  else 1

/-- `totalElapsed = Math.min(st.limit, st.elapsed + (nowSec - st.startTime))`
computed on every tick and by the pause and show-status handlers. -/
def totalElapsed (st : TimerState) (now : ℚ) : ℚ :=
  min st.limit (st.elapsed + (now - st.startTime))

/-- `remaining = st.limit - totalElapsed`. -/
def remaining (st : TimerState) (now : ℚ) : ℚ :=
  st.limit - totalElapsed st now

/-- JS truncation toward zero, as used by the `%` operator. -/
def jsTrunc (q : ℚ) : ℤ :=
  if 0 ≤ q then ⌊q⌋ else ⌈q⌉

/-- JS remainder `a % b` (sign follows the dividend). -/
def jsMod (a b : ℚ) : ℚ :=
  a - b * jsTrunc (a / b)

/-- `String(n).padStart(2, '0')`. -/
def padTwo (n : ℤ) : String :=
  let s := toString n
  if s.length < 2 then "0" ++ s else s

/-- `formatTime` from `src/extension.ts`: `MM:SS`, both fields floored and
zero-padded. -/
def formatTime (sec : ℚ) : String :=
  padTwo ⌊sec / 60⌋ ++ ":" ++ padTwo ⌊jsMod sec 60⌋

/-- JS string interpolation of a possibly-undefined value. -/
def showOptString : Option String → String
  | some s => s
  | none   => "undefined"

/-- The `extension.pauseTimer` handler's effect on the persisted record:
`saveState({ ...st, elapsed: Math.min(st.limit, st.elapsed + (now - st.startTime)) })`,
and `null` state is left untouched. -/
def pauseTimerCmd (prior : Option TimerState) (now : ℚ) : Option TimerState :=
  prior.map fun st => { st with elapsed := totalElapsed st now }

/-- The fresh state built in the `extension.startTimer` handler when there is
no stored state or the stored branch differs:
`{ branch, elapsed: 0, limit: BRANCH_LIMITS[branch] ?? 30*60, startTime: now, task: 1 }`. -/
def initFor (branch : String) (now : ℚ) : TimerState :=
  { branch := some branch
    elapsed := 0
    limit := (BRANCH_LIMITS branch).getD (30 * 60)
    startTime := now
    task := 1 }

/-- The state the start handler settles on before its first `saveState`:
`let st = loadState(); if (!st || st.branch !== branch) st = initFor`. -/
def resolveState (prior : Option TimerState) (branch : String) (now : ℚ) : TimerState :=
  match prior with
  | none => initFor branch now
  | some s => if s.branch = some branch then s else initFor branch now

/-- How an `extension.startTimer` invocation ends. -/
inductive StartOutcome where
  /-- `st.task > maxTasks` right after load: completion notice, return. -/
  | alreadyComplete
  /-- pause marker consumed and the incremented task exceeds `maxTasks`:
  completion notice, return (the increment is not saved on this path). -/
  | completedViaMarker
  /-- the confirmation prompt was declined. -/
  | declined
  /-- the prompt was accepted and `runTimerLoop` was launched. -/
  | launched
deriving Repr, DecidableEq

/-- Result of one `extension.startTimer` invocation.  `firstWrite` is the
record saved unconditionally right after branch resolution (line 357);
`persisted` is the state file's content when the handler returns (before any
tick of the launched loop); `loopLaunched` records whether a new
`runTimerLoop` was spawned. -/
structure StartResult where
  firstWrite   : TimerState
  persisted    : TimerState
  outcome      : StartOutcome
  loopLaunched : Bool
deriving Repr, DecidableEq

/-- The `extension.startTimer` handler from `src/extension.ts`, lines
338-408, as a function of the loaded state, the current branch, whether the
`.pause_timer` marker exists, whether the user completes the confirmation
prompt, and the clock. -/
def startTimer (prior : Option TimerState) (branch : String)
    (pauseMarker promptAccepted : Bool) (now : ℚ) : StartResult :=
  let maxTasks := maxTasksFor branch
  let st := resolveState prior branch now
  if st.task > maxTasks then
    ⟨st, st, .alreadyComplete, false⟩
  else if pauseMarker then
    let st1 : TimerState := { st with task := st.task + 1 }
    if st1.task > maxTasks then
      ⟨st, st, .completedViaMarker, false⟩
    else if promptAccepted then
      ⟨st, { st1 with startTime := now }, .launched, true⟩
    else
      ⟨st, st, .declined, false⟩
  else
    if promptAccepted then
      ⟨st, { st with elapsed := 0, startTime := now }, .launched, true⟩
    else
      ⟨st, st, .declined, false⟩

/-- How a single iteration of `runTimerLoop` ends. -/
inductive TickOutcome where
  /-- pause marker consumed, task advanced, next prompt accepted: loop
  continues with the updated state. -/
  | advanced
  /-- pause marker consumed and the incremented task exceeds `maxTasks`:
  completion notice, loop returns. -/
  | completed
  /-- pause marker consumed but the next-task prompt was declined: loop
  returns. -/
  | declinedNext
  /-- `remaining <= 0`: `onTimerFinished` runs and the loop returns. -/
  | expired
  /-- ordinary tick: display updated, state persisted, loop continues. -/
  | ticked
deriving Repr, DecidableEq

/-- Result of one iteration of `runTimerLoop`.  `st` is the in-memory state
the loop continues with; `persisted` is the state file's content after the
iteration; `warned` records whether the 5-minute warning modal was shown. -/
structure TickResult where
  st        : TimerState
  persisted : TimerState
  outcome   : TickOutcome
  warned    : Bool
deriving Repr, DecidableEq

/-- One iteration of `runTimerLoop` (`src/extension.ts`, lines 270-330):
wake at `now`, compute `totalElapsed` and `remaining`; if the pause marker is
present, consume it, persist the clamped elapsed, increment `task`, persist
again, and either finish (task count exhausted), return on a declined
prompt, or reset `startTime` to `resumeNow` and continue; otherwise persist
`{ ...st, elapsed: totalElapsed }`, show the warning when
`remaining <= 300 && remaining > 299`, and finish when `remaining <= 0`. -/
def timerTick (st : TimerState) (now : ℚ) (pauseMarker promptAccepted : Bool)
    (resumeNow : ℚ) (maxTasks : ℕ) : TickResult :=
  let te := totalElapsed st now
  let rem := st.limit - te
  if pauseMarker then
    let st2 : TimerState := { st with elapsed := te, task := st.task + 1 }
    if st2.task > maxTasks then
      ⟨st2, st2, .completed, false⟩
    else if promptAccepted then
      let st3 : TimerState := { st2 with startTime := resumeNow }
      ⟨st3, st3, .advanced, false⟩
    else
      ⟨st2, st2, .declinedNext, false⟩
  else
    let saved : TimerState := { st with elapsed := te }
    let w := decide (rem ≤ 300 ∧ 299 < rem)
    if rem ≤ 0 then
      ⟨st, saved, .expired, w⟩
    else
      ⟨st, saved, .ticked, w⟩

/-- A raw `Partial<TimerState>` record as parsed from `.timer_state.json`:
every field may be missing. -/
structure RawState where
  branch    : Option String
  elapsed   : Option ℚ
  limit     : Option ℚ
  startTime : Option ℚ
  task      : Option ℕ
deriving Repr, DecidableEq

/-- `loadState` from `src/extension.ts`, lines 38-48.  The state file is
`none` when absent (`existsSync` fails, return `null`); otherwise
`JSON.parse` either throws — nothing in `loadState` catches, so the error
propagates to the caller — or yields a partial record whose missing fields
are defaulted: `elapsed ?? 0`,
`limit ?? (BRANCH_LIMITS[branch] ?? 30*60)`, `startTime ?? Date.now()/1000`,
`task ?? 1`. -/
def loadState (now : ℚ) (stateFile : Option (Except String RawState)) :
    Except String (Option TimerState) :=
  match stateFile with
  | none => Except.ok none
  | some (Except.error e) => Except.error e
  | some (Except.ok st) =>
      Except.ok (some
        { branch := st.branch
          elapsed := st.elapsed.getD 0
          limit := st.limit.getD (branchLimitLookup st.branch)
          startTime := st.startTime.getD now
          task := st.task.getD 1 })

/-- Observable effects of `onTimerFinished` (`src/extension.ts`, lines
231-260) after the time's-up modal: whether the lockout pre-commit hook got
written, which notices were shown, whether the failure was logged via
`console.error`, and whether an exception escaped the function. -/
structure FinishResult where
  lockoutInstalled : Bool
  successNotice    : Bool
  errorNotice      : Bool
  logged           : Bool
  raised           : Bool
deriving Repr, DecidableEq

/-- The try/catch of `onTimerFinished`: `repo.add`, `repo.commit` and
`repo.push` run in order inside `try`, and `installLockout()` follows the
push inside the same `try`; the `catch` logs the error and shows a
non-fatal `Auto-commit failed` message without rethrowing.  `gitFound`
models `vscode.extensions.getExtension('vscode.git')` resolving, and the
three Booleans whether stage, commit and push succeed. -/
def onTimerFinished (gitFound stageOk commitOk pushOk : Bool) : FinishResult :=
  if gitFound && stageOk && commitOk && pushOk then
    { lockoutInstalled := true, successNotice := true, errorNotice := false
      logged := false, raised := false }
  else
    { lockoutInstalled := false, successNotice := false, errorNotice := true
      logged := true, raised := false }

/-- The `extension.showStatus` handler (`src/extension.ts`, lines 426-439):
with no stored state it shows `Timer not started.`; otherwise it shows
`[branch] Running | Remaining: MM:SS`.  The handler never calls `saveState`,
so the second component — the state file after the command — equals the
input, and the `Running` label is a fixed literal: the handler has no loop
handle and never checks whether a loop is ticking. -/
def showStatus (prior : Option TimerState) (now : ℚ) :
    String × Option TimerState :=
  match prior with
  | none => ("Timer not started.", none)
  | some st =>
      ("[" ++ showOptString st.branch ++ "] Running | Remaining: " ++
        formatTime (remaining st now), some st)

/-- The show-status behaviour as the claim words it, for comparison with
`showStatus`: the message reports the actual run state, `Running` or
`Paused`.  (The earlier variant of the handler in the repository computes
this from its interval handle.) -/
def showStatusClaimed (prior : Option TimerState) (now : ℚ)
    (loopRunning : Bool) : String × Option TimerState :=
  match prior with
  | none => ("Timer not started.", none)
  | some st =>
      ("[" ++ showOptString st.branch ++ "] " ++
        (if loopRunning then "Running" else "Paused") ++ " | Remaining: " ++
        formatTime (remaining st now), some st)

/-- The only interaction the `extension.startTimer` handler has with timer
loops (`src/extension.ts`, line 404): when the flow reaches its end it calls
`runTimerLoop(...)` fire-and-forget.  The file keeps no handle to a
previously launched loop and contains no cancellation of one, so a launch
adds one loop to however many are already ticking. -/
def loopsAfterStart (activeLoops : ℕ) (prior : Option TimerState)
    (branch : String) (pauseMarker promptAccepted : Bool) (now : ℚ) : ℕ :=
  activeLoops +
    (if (startTimer prior branch pauseMarker promptAccepted now).loopLaunched
      then 1 else 0)

/-- `remaining` at the k-th wake-up of `runTimerLoop`: the loop sleeps
1000 ms between iterations, so during an uninterrupted running interval the
k-th check happens k seconds after the interval began at `st.startTime`. -/
def remainingAtTick (st : TimerState) (k : ℕ) : ℚ :=
  remaining st (st.startTime + k)

/-- The tick-k evaluation of the warning guard
`remaining <= 300 && remaining > 299`. -/
def warnsAtTick (st : TimerState) (k : ℕ) : Bool :=
  decide (remainingAtTick st k ≤ 300 ∧ 299 < remainingAtTick st k)

end TimerExt

namespace TimerExt

/-- Claim C1: with `0 ≤ elapsed ≤ limit` and `startTime ≤ now ≤ now'`, the
effective elapsed time `min(limit, elapsed + (now - startTime))` is
monotonically non-decreasing in `now` and never exceeds `limit`; hence
`remaining = limit - totalElapsed ≥ 0`, and the elapsed value persisted by a
tick or by the pause command stays within `[0, limit]`. -/
theorem C1_effective_elapsed_monotone_clamped
    (st : TimerState) (now now' : ℚ)
    (h0 : 0 ≤ st.elapsed) (h1 : st.elapsed ≤ st.limit)
    (hs : st.startTime ≤ now) (hm : now ≤ now') :
    totalElapsed st now ≤ totalElapsed st now' ∧
    totalElapsed st now ≤ st.limit ∧
    0 ≤ remaining st now ∧
    (∀ st', pauseTimerCmd (some st) now = some st' →
      0 ≤ st'.elapsed ∧ st'.elapsed ≤ st.limit) := by
  have hlim : (0 : ℚ) ≤ st.limit := le_trans h0 h1
  have hmono : totalElapsed st now ≤ totalElapsed st now' := by
    unfold totalElapsed
    exact min_le_min le_rfl (by linarith)
  have hb : totalElapsed st now ≤ st.limit := min_le_left _ _
  have hnn : 0 ≤ totalElapsed st now := by
    unfold totalElapsed
    exact le_min hlim (by linarith)
  refine ⟨hmono, hb, ?_, ?_⟩
  · unfold remaining
    linarith
  · intro st' hst'
    simp only [pauseTimerCmd, Option.map_some', Option.some.injEq] at hst'
    subst hst'
    exact ⟨hnn, hb⟩

/-- Witness for C1 at a concrete state and a pair of clock readings. -/
theorem C1_witness :
    (0 : ℚ) ≤ 100 ∧ (100 : ℚ) ≤ 900 ∧ (50 : ℚ) ≤ 60 ∧ (60 : ℚ) ≤ 80 ∧
    (totalElapsed ⟨some "tutorial", 100, 900, 50, 1⟩ 60 ≤
        totalElapsed ⟨some "tutorial", 100, 900, 50, 1⟩ 80 ∧
      totalElapsed ⟨some "tutorial", 100, 900, 50, 1⟩ 60 ≤ 900 ∧
      0 ≤ remaining ⟨some "tutorial", 100, 900, 50, 1⟩ 60 ∧
      (∀ st', pauseTimerCmd (some ⟨some "tutorial", 100, 900, 50, 1⟩) 60 = some st' →
        0 ≤ st'.elapsed ∧ st'.elapsed ≤ 900)) :=
  ⟨by norm_num, by norm_num, by norm_num, by norm_num,
    C1_effective_elapsed_monotone_clamped ⟨some "tutorial", 100, 900, 50, 1⟩ 60 80
      (by norm_num) (by norm_num) (by norm_num) (by norm_num)⟩

/-- Claim C2: on a fixed branch the task index only increases, by exactly 1
per pause-marker consumption, and the persisted task index never exceeds
`maxTasks(branch) + 1`; once `task = maxTasks(branch) + 1` the state is
terminal and idempotent — re-invoking start on the same branch yields the
completion notice and returns with the task count unchanged.  The first
conjunct covers the `extension.startTimer` handler, the second the
`runTimerLoop` iteration. -/
theorem C2_task_monotone_bounded_terminal (branch : String) (st : TimerState)
    (marker accepted : Bool) (now resumeNow : ℚ)
    (hb : st.branch = some branch) :
    (((startTimer (some st) branch marker accepted now).persisted.task = st.task ∨
        (startTimer (some st) branch marker accepted now).persisted.task = st.task + 1) ∧
      ((startTimer (some st) branch marker accepted now).persisted.task = st.task + 1 →
        marker = true) ∧
      (st.task ≤ maxTasksFor branch + 1 →
        (startTimer (some st) branch marker accepted now).persisted.task ≤
          maxTasksFor branch + 1) ∧
      (st.task = maxTasksFor branch + 1 →
        startTimer (some st) branch marker accepted now =
          ⟨st, st, .alreadyComplete, false⟩)) ∧
    (st.task ≤ maxTasksFor branch →
      ((timerTick st now marker accepted resumeNow (maxTasksFor branch)).persisted.task = st.task ∨
        (timerTick st now marker accepted resumeNow (maxTasksFor branch)).persisted.task = st.task + 1) ∧
      ((timerTick st now marker accepted resumeNow (maxTasksFor branch)).persisted.task = st.task + 1 ↔
        marker = true) ∧
      (timerTick st now marker accepted resumeNow (maxTasksFor branch)).persisted.task ≤
        maxTasksFor branch + 1 ∧
      ((timerTick st now marker accepted resumeNow (maxTasksFor branch)).persisted.task =
          maxTasksFor branch + 1 →
        (timerTick st now marker accepted resumeNow (maxTasksFor branch)).outcome = .completed)) := by
  have hres : resolveState (some st) branch now = st := by
    simp [resolveState, hb]
  constructor
  · simp only [startTimer, hres]
    split_ifs with h1 h2 h3 h4 h5 <;>
      simp_all <;> omega
  · intro hle
    simp only [timerTick]
    split_ifs with h1 h2 h3 h4 <;>
      simp_all <;> omega

/-- Witness for C2 at a concrete state: branch `addPicture` (3 tasks), a
pause marker present, prompt accepted, stored task 1. -/
theorem C2_witness :
    (⟨some "addPicture", 100, 1800, 0, 1⟩ : TimerState).branch = some "addPicture" ∧
    ((⟨some "addPicture", 100, 1800, 0, 1⟩ : TimerState).task ≤ maxTasksFor "addPicture" + 1 →
      (startTimer (some ⟨some "addPicture", 100, 1800, 0, 1⟩) "addPicture" true true 5).persisted.task ≤
        maxTasksFor "addPicture" + 1) :=
  ⟨rfl,
    (C2_task_monotone_bounded_terminal "addPicture" ⟨some "addPicture", 100, 1800, 0, 1⟩
      true true 5 6 rfl).1.2.2.1⟩

/-- Claim C8: when start runs with no stored state, or with a stored state
whose branch differs from the current branch, the record written by the
handler's first `saveState` is the re-initialized state
`elapsed = 0, task = 1, startTime = now, limit = BRANCH_LIMITS[branch] ?? 30*60`,
regardless of the prior record's lingering field values. -/
theorem C8_reinit_on_branch_switch (prior : Option TimerState) (branch : String)
    (marker accepted : Bool) (now : ℚ)
    (h : prior = none ∨ ∃ s, prior = some s ∧ s.branch ≠ some branch) :
    (startTimer prior branch marker accepted now).firstWrite =
      ⟨some branch, 0, (BRANCH_LIMITS branch).getD (30 * 60), now, 1⟩ := by
  have hres : resolveState prior branch now = initFor branch now := by
    rcases h with h | ⟨s, rfl, hne⟩
    · subst h; rfl
    · simp [resolveState, hne]
  have hfw : (startTimer prior branch marker accepted now).firstWrite =
      resolveState prior branch now := by
    simp only [startTimer]
    split_ifs <;> rfl
  rw [hfw, hres]; rfl

/-- Witness for C8: a stored `tutorial` state with lingering
`elapsed = 777, limit = 42, task = 5` is discarded entirely when start runs
on branch `main`. -/
theorem C8_witness :
    ((some ⟨some "tutorial", 777, 42, 9, 5⟩ : Option TimerState) = none ∨
      ∃ s, (some ⟨some "tutorial", 777, 42, 9, 5⟩ : Option TimerState) = some s ∧
        s.branch ≠ some "main") ∧
    (startTimer (some ⟨some "tutorial", 777, 42, 9, 5⟩) "main" false true 50).firstWrite =
      ⟨some "main", 0, (BRANCH_LIMITS "main").getD (30 * 60), 50, 1⟩ :=
  ⟨Or.inr ⟨⟨some "tutorial", 777, 42, 9, 5⟩, rfl, by decide⟩,
    C8_reinit_on_branch_switch (some ⟨some "tutorial", 777, 42, 9, 5⟩) "main" false true 50
      (Or.inr ⟨⟨some "tutorial", 777, 42, 9, 5⟩, rfl, by decide⟩)⟩

/-- Claim C9 (implicit): when start runs with no pause marker present and
the confirmation prompt is accepted, the persisted state has `elapsed = 0`
and `startTime = now`, even when the stored state matches the current branch
and had accumulated elapsed time — so pause followed by re-start on the same
branch discards accumulated elapsed and grants the full budget again. -/
theorem C9_restart_resets_elapsed (st : TimerState) (branch : String) (now : ℚ)
    (hb : st.branch = some branch) (ht : st.task ≤ maxTasksFor branch) :
    startTimer (some st) branch false true now =
      ⟨st, { st with elapsed := 0, startTime := now }, .launched, true⟩ := by
  have hres : resolveState (some st) branch now = st := by
    simp [resolveState, hb]
  have hgt : ¬ st.task > maxTasksFor branch := by omega
  simp [startTimer, hres, hgt]

/-- Witness for C9: a `tutorial` state with 500 accumulated seconds is
restarted with `elapsed = 0` and a fresh `startTime`. -/
theorem C9_witness :
    (⟨some "tutorial", 500, 900, 10, 1⟩ : TimerState).branch = some "tutorial" ∧
    (⟨some "tutorial", 500, 900, 10, 1⟩ : TimerState).task ≤ maxTasksFor "tutorial" ∧
    startTimer (some ⟨some "tutorial", 500, 900, 10, 1⟩) "tutorial" false true 600 =
      ⟨⟨some "tutorial", 500, 900, 10, 1⟩, ⟨some "tutorial", 0, 900, 600, 1⟩,
        .launched, true⟩ :=
  ⟨rfl, by decide,
    C9_restart_resets_elapsed ⟨some "tutorial", 500, 900, 10, 1⟩ "tutorial" 600 rfl
      (by decide)⟩

/-- Claim C10 (implicit): on the task-advance transition inside the timer
loop (pause marker consumed, next task accepted, task count not exhausted)
the accumulated elapsed is preserved across the task boundary — the state
keeps `elapsed = totalElapsed` at the pause, only `task` is incremented and
`startTime` reset to the resume clock, with branch and limit unchanged — so
all tasks on the branch share the single time budget.  In particular the new
elapsed is at least the old accumulated elapsed, never reset to zero. -/
theorem C10_task_advance_preserves_elapsed (st : TimerState)
    (pauseNow resumeNow : ℚ) (maxTasks : ℕ)
    (ht : st.task + 1 ≤ maxTasks)
    (h1 : st.elapsed ≤ st.limit) (hs : st.startTime ≤ pauseNow) :
    timerTick st pauseNow true true resumeNow maxTasks =
      ⟨⟨st.branch, totalElapsed st pauseNow, st.limit, resumeNow, st.task + 1⟩,
        ⟨st.branch, totalElapsed st pauseNow, st.limit, resumeNow, st.task + 1⟩,
        .advanced, false⟩ ∧
    st.elapsed ≤ totalElapsed st pauseNow := by
  constructor
  · have hgt : ¬ st.task + 1 > maxTasks := by omega
    simp [timerTick, hgt]
  · unfold totalElapsed
    exact le_min h1 (by linarith)

/-- Witness for C10: a pause on branch `addDistance` advances to task 2
keeping the accumulated time on the clock. -/
theorem C10_witness :
    (⟨some "addDistance", 0, 1800, 0, 1⟩ : TimerState).task + 1 ≤ 3 ∧
    (⟨some "addDistance", 0, 1800, 0, 1⟩ : TimerState).elapsed ≤ 1800 ∧
    (⟨some "addDistance", 0, 1800, 0, 1⟩ : TimerState).startTime ≤ 600 ∧
    (timerTick ⟨some "addDistance", 0, 1800, 0, 1⟩ 600 true true 700 3 =
      ⟨⟨some "addDistance", totalElapsed ⟨some "addDistance", 0, 1800, 0, 1⟩ 600, 1800, 700, 2⟩,
        ⟨some "addDistance", totalElapsed ⟨some "addDistance", 0, 1800, 0, 1⟩ 600, 1800, 700, 2⟩,
        .advanced, false⟩ ∧
      (⟨some "addDistance", 0, 1800, 0, 1⟩ : TimerState).elapsed ≤
        totalElapsed ⟨some "addDistance", 0, 1800, 0, 1⟩ 600) :=
  ⟨by decide, by decide, by decide,
    C10_task_advance_preserves_elapsed ⟨some "addDistance", 0, 1800, 0, 1⟩ 600 700 3
      (by decide) (by decide) (by decide)⟩

/-- Claim C6: `loadState` returns absent exactly when no state file exists;
a record missing fields is filled with the defaults `elapsed = 0`,
`limit = BRANCH_LIMITS[branch] ?? 30*60`, `startTime = now`, `task = 1`;
and a malformed (unparsable) file is a parse error propagated to the
caller, not silently recovered. -/
theorem C6_loadState_absent_defaults_error (now : ℚ) :
    (∀ stateFile, loadState now stateFile = Except.ok none ↔ stateFile = none) ∧
    (∀ e, loadState now (some (Except.error e)) = Except.error e) ∧
    (∀ raw, loadState now (some (Except.ok raw)) =
      Except.ok (some ⟨raw.branch, raw.elapsed.getD 0,
        raw.limit.getD (branchLimitLookup raw.branch),
        raw.startTime.getD now, raw.task.getD 1⟩)) ∧
    (∀ b, loadState now (some (Except.ok ⟨b, none, none, none, none⟩)) =
      Except.ok (some ⟨b, 0, branchLimitLookup b, now, 1⟩)) := by
  refine ⟨?_, fun e => rfl, fun raw => rfl, fun b => rfl⟩
  intro stateFile
  match stateFile with
  | none => simp [loadState]
  | some (Except.error e) => simp [loadState]
  | some (Except.ok raw) => simp [loadState]

/-- Counterexample to claim C3 as stated: when the push fails, the catch
branch runs and `installLockout()` — which sits after the push inside the
same `try` — is skipped, so the lockout hook is NOT installed despite the
failure. -/
theorem C3_counterexample :
    (onTimerFinished true true true false).errorNotice = true ∧
    (onTimerFinished true true true false).lockoutInstalled = false := by
  decide

/-- Claim C3 amended: when the stage/commit/push sequence fails (or the git
extension is missing), the failure is caught (nothing escapes), logged, and
surfaced as a non-fatal error message, and the lockout hook is NOT
installed; it is installed, with the success notice, exactly when the whole
sequence succeeds. -/
theorem C3_failure_caught_lockout_skipped
    (gitFound stageOk commitOk pushOk : Bool) :
    (onTimerFinished gitFound stageOk commitOk pushOk).raised = false ∧
    (onTimerFinished gitFound stageOk commitOk pushOk).lockoutInstalled =
      (gitFound && stageOk && commitOk && pushOk) ∧
    (onTimerFinished gitFound stageOk commitOk pushOk).errorNotice =
      !(gitFound && stageOk && commitOk && pushOk) ∧
    (onTimerFinished gitFound stageOk commitOk pushOk).logged =
      !(gitFound && stageOk && commitOk && pushOk) ∧
    (onTimerFinished gitFound stageOk commitOk pushOk).successNotice =
      (gitFound && stageOk && commitOk && pushOk) := by
  cases gitFound <;> cases stageOk <;> cases commitOk <;> cases pushOk <;> decide

/-- Counterexample to claim C7 as stated: at a concrete paused situation
(no loop is ticking) the show-status message still reads `Running`; the
handler does not report whether the timer is running or paused. -/
theorem C7_counterexample :
    (showStatus (some ⟨some "main", 60, 360, 0, 1⟩) 0).1 =
      "[main] Running | Remaining: 05:00" ∧
    (showStatus (some ⟨some "main", 60, 360, 0, 1⟩) 0).1 ≠
      (showStatusClaimed (some ⟨some "main", 60, 360, 0, 1⟩) 0 false).1 := by
  have hrem : remaining ⟨some "main", 60, 360, 0, 1⟩ 0 = 300 := by
    unfold remaining totalElapsed
    norm_num
  have hmod : jsMod 300 60 = 0 := by
    norm_num [jsMod, jsTrunc]
  have hfmt : formatTime 300 = "05:00" := by
    unfold formatTime
    rw [hmod]
    norm_num
    decide
  constructor
  · show "[" ++ showOptString (some "main") ++ "] Running | Remaining: " ++
      formatTime (remaining ⟨some "main", 60, 360, 0, 1⟩ 0) =
      "[main] Running | Remaining: 05:00"
    rw [hrem, hfmt]
    decide
  · show "[" ++ showOptString (some "main") ++ "] Running | Remaining: " ++
      formatTime (remaining ⟨some "main", 60, 360, 0, 1⟩ 0) ≠
      "[" ++ showOptString (some "main") ++ "] " ++
        (if False then "Running" else "Paused") ++ " | Remaining: " ++
        formatTime (remaining ⟨some "main", 60, 360, 0, 1⟩ 0)
    rw [hrem, hfmt]
    decide

/-- Claim C7 amended: the show-status command reports the branch and the
remaining time under a fixed `Running` label regardless of the actual run
state, without mutating any state (the resulting state file always equals
the input); with no persisted state it reports `Timer not started.` as an
informational message and is a no-op. -/
theorem C7_showStatus_frame (prior : Option TimerState) (st : TimerState)
    (now : ℚ) :
    (showStatus prior now).2 = prior ∧
    (showStatus none now).1 = "Timer not started." ∧
    (showStatus (some st) now).1 =
      "[" ++ showOptString st.branch ++ "] Running | Remaining: " ++
        formatTime (remaining st now) := by
  refine ⟨?_, rfl, rfl⟩
  cases prior <;> rfl

/-- Claim C4 fails on the code: `extension.startTimer` keeps no handle to a
previously launched `runTimerLoop` and cancels nothing, so two accepted
start invocations (branch `main`, no pause marker, prompt completed both
times, neither loop having paused or expired) leave two ticking loops
coexisting, where the claim demands at most one. -/
theorem C4_two_loops_coexist :
    loopsAfterStart (loopsAfterStart 0 none "main" false true 10)
      (some (startTimer none "main" false true 10).persisted)
      "main" false true 20 = 2 ∧
    ¬ (loopsAfterStart (loopsAfterStart 0 none "main" false true 10)
        (some (startTimer none "main" false true 10).persisted)
        "main" false true 20 ≤ 1) := by
  constructor <;> decide

/-- The remaining value checked at the k-th tick, written without the
clock: the wall-clock delta at the k-th wake-up is exactly k seconds. -/
theorem remainingAtTick_eq (st : TimerState) (k : ℕ) :
    remainingAtTick st k = st.limit - min st.limit (st.elapsed + k) := by
  unfold remainingAtTick remaining totalElapsed
  have h : st.elapsed + (st.startTime + (k : ℚ) - st.startTime) =
      st.elapsed + k := by ring
  rw [h]

/-- Claim C5: during a continuous running interval (ticks one second apart,
no pause marker), the warning modal at the k-th tick is shown iff the
remaining time at that tick lies in the half-open window (299, 300]; it is
shown for at most one tick (never twice per crossing); it is never shown
when the interval starts with strictly less than 300 seconds remaining; and
whenever the interval starts with more than 300 seconds remaining some tick
does show it — all together, exactly once per crossing of the 300-second
mark.  The first conjunct ties the guard to the embedded loop iteration. -/
theorem C5_warning_once_per_crossing (st : TimerState) :
    (∀ (k : ℕ) (accepted : Bool) (resumeNow : ℚ) (maxTasks : ℕ),
      (timerTick st (st.startTime + k) false accepted resumeNow maxTasks).warned =
        warnsAtTick st k) ∧
    (∀ k : ℕ, warnsAtTick st k = true ↔
      (remainingAtTick st k ≤ 300 ∧ 299 < remainingAtTick st k)) ∧
    (∀ j k : ℕ, j < k → warnsAtTick st j = true → warnsAtTick st k = false) ∧
    (st.limit - st.elapsed < 300 →
      ∀ k : ℕ, 1 ≤ k → warnsAtTick st k = false) ∧
    (300 < st.limit - st.elapsed →
      ∃ k : ℕ, 1 ≤ k ∧ warnsAtTick st k = true) := by
  refine ⟨?_, ?_, ?_, ?_, ?_⟩
  · intro k accepted resumeNow maxTasks
    simp only [timerTick, Bool.false_eq_true, if_false]
    split_ifs <;> rfl
  · intro k
    simp [warnsAtTick]
  · intro j k hjk hj
    simp only [warnsAtTick, decide_eq_true_eq, remainingAtTick_eq] at hj
    simp only [warnsAtTick, decide_eq_false_iff_not, remainingAtTick_eq,
      not_and, not_lt]
    intro hle
    obtain ⟨hj1, hj2⟩ := hj
    have hjlim : st.elapsed + j ≤ st.limit := by
      by_contra hcon
      push_neg at hcon
      rw [min_eq_left (le_of_lt hcon)] at hj2
      linarith
    rw [min_eq_right hjlim] at hj1 hj2
    have hk1 : (j : ℚ) + 1 ≤ k := by exact_mod_cast hjk
    rcases le_total st.limit (st.elapsed + k) with h | h
    · rw [min_eq_left h]
      linarith
    · rw [min_eq_right h]
      linarith
  · intro hr0 k hk
    simp only [warnsAtTick, decide_eq_false_iff_not, remainingAtTick_eq,
      not_and, not_lt]
    intro hle
    have hk1 : (1 : ℚ) ≤ k := by exact_mod_cast hk
    rcases le_total st.limit (st.elapsed + k) with h | h
    · rw [min_eq_left h]
      linarith
    · rw [min_eq_right h]
      linarith
  · intro hr0
    have hceil : (300 : ℤ) < ⌈st.limit - st.elapsed⌉ := by
      rw [Int.lt_ceil]
      exact_mod_cast hr0
    refine ⟨(⌈st.limit - st.elapsed⌉ - 300).toNat, ?_, ?_⟩
    · omega
    · have hcast : ((⌈st.limit - st.elapsed⌉ - 300).toNat : ℚ) =
          ((⌈st.limit - st.elapsed⌉ : ℚ) - 300) := by
        have hnn : (0 : ℤ) ≤ ⌈st.limit - st.elapsed⌉ - 300 := by omega
        have h2 : ((⌈st.limit - st.elapsed⌉ - 300).toNat : ℤ) =
            ⌈st.limit - st.elapsed⌉ - 300 := Int.toNat_of_nonneg hnn
        have h3 := congrArg (fun z : ℤ => (z : ℚ)) h2
        push_cast at h3
        exact_mod_cast h3
      have hle : st.limit - st.elapsed ≤ (⌈st.limit - st.elapsed⌉ : ℚ) :=
        Int.le_ceil _
      have hlt : ((⌈st.limit - st.elapsed⌉ : ℚ)) < st.limit - st.elapsed + 1 :=
        Int.ceil_lt_add_one _
      simp only [warnsAtTick, decide_eq_true_eq, remainingAtTick_eq]
      have hmin : st.elapsed + ((⌈st.limit - st.elapsed⌉ - 300).toNat : ℚ) ≤
          st.limit := by
        rw [hcast]
        linarith
      rw [min_eq_right hmin, hcast]
      constructor <;> linarith

/-- Witness for C5 at a concrete state: a fresh `tutorial` interval with
900 seconds remaining crosses the 300-second mark, and the warning fires at
some tick. -/
theorem C5_witness :
    (300 : ℚ) < (⟨some "tutorial", 0, 900, 0, 1⟩ : TimerState).limit -
      (⟨some "tutorial", 0, 900, 0, 1⟩ : TimerState).elapsed ∧
    ∃ k : ℕ, 1 ≤ k ∧ warnsAtTick ⟨some "tutorial", 0, 900, 0, 1⟩ k = true :=
  ⟨by norm_num,
    (C5_warning_once_per_crossing
      ⟨some "tutorial", 0, 900, 0, 1⟩).2.2.2.2 (by norm_num)⟩

end TimerExt
